import Mathlib

/-
Verification development for the libmeminfo per-VMA memory accounting engine.

The definitions below are a shallow embedding of `src/procmeminfo.cpp` and
`src/androidprocheaps.cpp`.  C `uint64_t` counters are modelled as `Nat`;
all quantities involved are kilobyte or page counts that stay far below
2^64 on any real input, so additive wraparound is not modelled.  The two
places where 64-bit wraparound is genuinely reachable (the `pss - uss`
subtraction in the heap scanner, and `strtoull` overflow clamping) are
modelled explicitly (`usub64`, clamping in `strtoull_model`).
-/

namespace Meminfo

/-- Modelled from the spec: the `MemUsage` struct of the library's public
header (the header is not under `src/`; §3 of the spec lists its sixteen
counter fields, all kilobyte counts, zero-initialized).  The page walker in
`src/procmeminfo.cpp` additionally uses a separate `thp` counter, so it is
included as well. -/
structure MemUsage where
  vss : Nat := 0
  rss : Nat := 0
  pss : Nat := 0
  uss : Nat := 0
  swap : Nat := 0
  swap_pss : Nat := 0
  private_clean : Nat := 0
  private_dirty : Nat := 0
  shared_clean : Nat := 0
  shared_dirty : Nat := 0
  shared_hugetlb : Nat := 0
  private_hugetlb : Nat := 0
  anon_huge_pages : Nat := 0
  shmem_pmd_mapped : Nat := 0
  file_pmd_mapped : Nat := 0
  locked : Nat := 0
  thp : Nat := 0
  deriving DecidableEq, Repr

/-- `MemUsage::clear()`: the all-zero value. -/
def MemUsage.clear : MemUsage := {}

/-- `add_mem_usage` (procmeminfo.cpp:54-67): merges `b` into `a`.
Note the source adds only nine fields: vss, rss, pss, uss, swap,
private_clean, private_dirty, shared_clean, shared_dirty. -/
def add_mem_usage (a b : MemUsage) : MemUsage :=
  { a with
    vss := a.vss + b.vss
    rss := a.rss + b.rss
    pss := a.pss + b.pss
    uss := a.uss + b.uss
    swap := a.swap + b.swap
    private_clean := a.private_clean + b.private_clean
    private_dirty := a.private_dirty + b.private_dirty
    shared_clean := a.shared_clean + b.shared_clean
    shared_dirty := a.shared_dirty + b.shared_dirty }

/-- C `isspace` for the default locale: space, \t, \n, \v, \f, \r. -/
def isspace_c (c : Char) : Bool :=
  c = ' ' || c = '\t' || c = '\n' || c = '\x0b' || c = '\x0c' || c = '\r'

/-- Numeric value of a decimal digit string (most significant first). -/
def natOfDigits (cs : List Char) : Nat :=
  cs.foldl (fun a c => a * 10 + (c.toNat - 48)) 0

/-- `strtoull(c, nullptr, 10)`: skips leading whitespace, reads a run of
decimal digits (0 if there is none), stops at the first non-digit, and
clamps to ULLONG_MAX on overflow.  A leading sign is not modelled (no
`/proc` input and no claim involves one). -/
def strtoull_model (cs : List Char) : Nat :=
  let t := cs.dropWhile isspace_c
  min (natOfDigits (t.takeWhile Char.isDigit)) (2 ^ 64 - 1)

/-- `parse_smaps_field` (procmeminfo.cpp:91-157).  Returns `some stats'`
when the line was a valid smaps stats line (there is a whitespace character
at position > 0 and the character just before it is a colon); a recognized
key updates the corresponding field, an unrecognized key leaves `stats`
unchanged (the line still counts as a stats line).  Returns `none`
otherwise. -/
def parse_smaps_field (line : String) (stats : MemUsage) : Option MemUsage :=
  let cs := line.data
  let key := cs.takeWhile (fun c => !isspace_c c)
  if key.length < cs.length ∧ 0 < key.length ∧ key.getLast? = some ':' then
    let v := strtoull_model ((cs.drop key.length).dropWhile isspace_c)
    -- switch (line[0]) with strncmp on the whole line, in source order
    if ("Pss:".data).isPrefixOf cs then some { stats with pss := v }
    else if ("Private_Clean:".data).isPrefixOf cs then
      some { stats with private_clean := v, uss := stats.uss + v }
    else if ("Private_Dirty:".data).isPrefixOf cs then
      some { stats with private_dirty := v, uss := stats.uss + v }
    else if ("Private_Hugetlb:".data).isPrefixOf cs then
      some { stats with private_hugetlb := v }
    else if ("Size:".data).isPrefixOf cs then some { stats with vss := v }
    else if ("Shared_Clean:".data).isPrefixOf cs then
      some { stats with shared_clean := v }
    else if ("Shared_Dirty:".data).isPrefixOf cs then
      some { stats with shared_dirty := v }
    else if ("Swap:".data).isPrefixOf cs then some { stats with swap := v }
    else if ("SwapPss:".data).isPrefixOf cs then some { stats with swap_pss := v }
    else if ("ShmemPmdMapped:".data).isPrefixOf cs then
      some { stats with shmem_pmd_mapped := v }
    else if ("Shared_Hugetlb:".data).isPrefixOf cs then
      some { stats with shared_hugetlb := v }
    else if ("Rss:".data).isPrefixOf cs then some { stats with rss := v }
    else if ("AnonHugePages:".data).isPrefixOf cs then
      some { stats with anon_huge_pages := v }
    else if ("FilePmdMapped:".data).isPrefixOf cs then
      some { stats with file_pmd_mapped := v }
    else if ("Locked:".data).isPrefixOf cs then some { stats with locked := v }
    else some stats
  else none

/-- One parsed maps-header line, as produced by the external libprocinfo
`ReadMapFileContent` callback (`android::procinfo::MapInfo`). -/
structure MapInfo where
  start : Nat
  end_ : Nat
  flags : Nat
  pgoff : Nat
  inode : Nat
  name : String
  shared : Bool
  deriving DecidableEq, Repr

/-- `Vma` (public header, §3 of the spec): one virtual memory area with an
embedded `MemUsage`. -/
structure Vma where
  start : Nat := 0
  end_ : Nat := 0
  offset : Nat := 0
  flags : Nat := 0
  name : String := ""
  inode : Nat := 0
  is_shared : Bool := false
  usage : MemUsage := MemUsage.clear
  deriving DecidableEq, Repr

/-- Default-constructed `Vma` (all fields zero / empty). -/
def Vma.empty : Vma := {}

/-- The fresh `Vma` built in `ForEachVmaFromFile` (procmeminfo.cpp:614-626):
`vma.clear()` followed by the field assignments from the parsed `MapInfo`;
the usage is zero. -/
def Vma.ofMapInfo (mi : MapInfo) : Vma :=
  { start := mi.start, end_ := mi.end_, offset := mi.pgoff, flags := mi.flags,
    name := mi.name, inode := mi.inode, is_shared := mi.shared,
    usage := MemUsage.clear }

/-- `g_excluded_vmas` (procmeminfo.cpp:47-52) for an `__x86_64__` build:
`[vectors]` always, `[vsyscall]` under the x86-64 ifdef. -/
def g_excluded_vmas : List String := ["[vectors]", "[vsyscall]"]

/-- Loop body of `ForEachVmaFromFile` (procmeminfo.cpp:596-652), over the
list of lines of the already-opened stream.  `rml` models the external
libprocinfo `ReadMapFileContent` single-line parse (`none` = parse
failure, which aborts the scan).  `cb` is the per-VMA callback; returning
`false` aborts.  The result is the overall success flag together with the
list of `Vma` values passed to the callback, in order.  `pv` is the
`parsing_vma` flag and `vma` the in-progress record. -/
def fevGo (rml : String → Option MapInfo) (cb : Vma → Bool) (rsf : Bool) :
    Bool → Vma → List String → Bool × List Vma
  | pv, vma, [] =>
      -- end of stream: flush a pending VMA through the callback
      if pv then (cb vma, [vma]) else (true, [])
  | pv, vma, l :: rest =>
      let handleHeader : Bool × List Vma :=
        match rml l with
        | none => (false, [])
        | some mi =>
            let v := Vma.ofMapInfo mi
            if rsf then fevGo rml cb rsf true v rest
            else
              if cb v then
                let r := fevGo rml cb rsf false v rest
                (r.1, v :: r.2)
              else (false, [v])
      if pv then
        match parse_smaps_field l vma.usage with
        | some u => fevGo rml cb rsf true { vma with usage := u } rest
        | none =>
            -- done collecting stats, make the callback, then reparse the line
            if cb vma then
              let r := handleHeader
              (r.1, vma :: r.2)
            else (false, [vma])
      else handleHeader

/-- `ForEachVmaFromFile` (procmeminfo.cpp:584-653) after a successful
`fopen`, starting with `parsing_vma = false` and a default `Vma`. -/
def ForEachVmaFromFile (rml : String → Option MapInfo) (cb : Vma → Bool)
    (rsf : Bool) (lines : List String) : Bool × List Vma :=
  fevGo rml cb rsf false Vma.empty lines

/-- The maps-reading collector of `ProcMemInfo::ReadMaps`
(procmeminfo.cpp:406-414): every parsed mapping whose name is not in
`g_excluded_vmas` is turned into a stored `Vma`. -/
def readMapsVmas (mis : List MapInfo) : List Vma :=
  (mis.filter (fun mi => !g_excluded_vmas.contains mi.name)).map Vma.ofMapInfo

/-- The retention condition of the `collect_vmas` callback in
`ProcMemInfo::Smaps` (procmeminfo.cpp:220-235): a delivered `Vma` is kept
only if its name is not in `g_excluded_vmas`. -/
def smapsCollectVmas (vmas : List Vma) : List Vma :=
  vmas.filter (fun v => !g_excluded_vmas.contains v.name)

/-- One line of the `SmapsOrRollupFromFile` scan (procmeminfo.cpp:688-719):
`Pss`, `Rss`, `Private_Clean`, `Private_Dirty` (both folded into uss) and
`SwapPss` accumulate; every other line is skipped. -/
def smapsOrRollupLine (stats : MemUsage) (line : String) : MemUsage :=
  let cs := line.data
  if ("Pss:".data).isPrefixOf cs then
    { stats with pss := stats.pss + strtoull_model (cs.drop 4) }
  else if ("Private_Clean:".data).isPrefixOf cs then
    let prcl := strtoull_model (cs.drop 14)
    { stats with private_clean := stats.private_clean + prcl,
                 uss := stats.uss + prcl }
  else if ("Private_Dirty:".data).isPrefixOf cs then
    let prdi := strtoull_model (cs.drop 14)
    { stats with private_dirty := stats.private_dirty + prdi,
                 uss := stats.uss + prdi }
  else if ("Rss:".data).isPrefixOf cs then
    { stats with rss := stats.rss + strtoull_model (cs.drop 4) }
  else if ("SwapPss:".data).isPrefixOf cs then
    { stats with swap_pss := stats.swap_pss + strtoull_model (cs.drop 8) }
  else stats

/-- `SmapsOrRollupFromFile` (procmeminfo.cpp:679-724) after a successful
`fopen`: clears `stats`, folds every line, and always returns `true`. -/
def SmapsOrRollupFromFile (lines : List String) : Bool × MemUsage :=
  (true, lines.foldl smapsOrRollupLine MemUsage.clear)

/-- The `Pss` contribution of a single line in the rollup scan. -/
def rollupPssVal (line : String) : Nat :=
  if ("Pss:".data).isPrefixOf line.data then strtoull_model (line.data.drop 4) else 0

/-- The `Rss` contribution of a single line in the rollup scan. -/
def rollupRssVal (line : String) : Nat :=
  if !(("Pss:".data).isPrefixOf line.data) ∧
      !(("Private_Clean:".data).isPrefixOf line.data) ∧
      !(("Private_Dirty:".data).isPrefixOf line.data) ∧
      ("Rss:".data).isPrefixOf line.data then
    strtoull_model (line.data.drop 4)
  else 0

/-- The `Private_Clean` contribution of a single line in the rollup scan. -/
def rollupPcVal (line : String) : Nat :=
  if !(("Pss:".data).isPrefixOf line.data) ∧
      ("Private_Clean:".data).isPrefixOf line.data then
    strtoull_model (line.data.drop 14)
  else 0

/-- The `Private_Dirty` contribution of a single line in the rollup scan. -/
def rollupPdVal (line : String) : Nat :=
  if !(("Pss:".data).isPrefixOf line.data) ∧
      !(("Private_Clean:".data).isPrefixOf line.data) ∧
      ("Private_Dirty:".data).isPrefixOf line.data then
    strtoull_model (line.data.drop 14)
  else 0

/-- The `SwapPss` contribution of a single line in the rollup scan. -/
def rollupSpVal (line : String) : Nat :=
  if !(("Pss:".data).isPrefixOf line.data) ∧
      !(("Private_Clean:".data).isPrefixOf line.data) ∧
      !(("Private_Dirty:".data).isPrefixOf line.data) ∧
      !(("Rss:".data).isPrefixOf line.data) ∧
      ("SwapPss:".data).isPrefixOf line.data then
    strtoull_model (line.data.drop 8)
  else 0

/-- Modelled from the spec: pagemap entry decoding (`meminfo_private.h` is
not under `src/`; §6: bit 63 = present, bit 62 = swapped, bits 0-54 = PFN
or swap data). -/
def PAGE_PRESENT (x : Nat) : Bool := x.testBit 63

/-- Modelled from the spec: swapped bit (bit 62) of a pagemap entry. -/
def PAGE_SWAPPED (x : Nat) : Bool := x.testBit 62

/-- Modelled from the spec: PFN field (bits 0-54) of a pagemap entry. -/
def PAGE_PFN (x : Nat) : Nat := x % 2 ^ 55

/-- Modelled from the spec: swap offset of a swapped pagemap entry, the
5-bit-shifted encoding of bits 0-54 (§8: swap-type in the low 5 bits,
swap-offset above). -/
def PAGE_SWAP_OFFSET (x : Nat) : Nat := (x % 2 ^ 55) >>> 5

/-- `KPF_DIRTY` from `linux/kernel-page-flags.h` (kernel ABI constant). -/
def KPF_DIRTY : Nat := 4

/-- `KPF_REFERENCED` from `linux/kernel-page-flags.h` (kernel ABI). -/
def KPF_REFERENCED : Nat := 2

/-- Modelled from the spec: `KPAGEFLAG_THP` (`meminfo_private.h` is not
under `src/`): tests the transparent-huge-page bit, `KPF_THP = 22` of the
kernel ABI. -/
def KPAGEFLAG_THP (f : Nat) : Bool := f.testBit 22

/-- Modelled from the spec (§4.3): the `PageAcct` page-flags oracle
(`pageacct.h`/`pageacct.cpp` are not under `src/`).  `initPageAcct` is the
success of `InitPageAcct(true)`; `pageFlags`/`pageMapCount` return `none`
on a failed `/proc/kpageflags` / `/proc/kpagecount` lookup; `isPageIdle`
returns an `Int` compared against 1 by the caller. -/
structure PageAcct where
  initPageAcct : Bool
  pageFlags : Nat → Option Nat
  pageMapCount : Nat → Option Nat
  isPageIdle : Nat → Int

/-- The boolean parameters of `ProcMemInfo::ReadVmaStats` together with the
object state it reads (`pgflags_`, `pgflags_mask_`) and the system page
size. -/
structure WalkParams where
  get_wss : Bool := false
  use_pageidle : Bool := false
  update_mem_usage : Bool := true
  update_swap_usage : Bool := true
  pgflags : Nat := 0
  pgflags_mask : Nat := 0
  pagesize : Nat := 4096

/-- The mutable state `ReadVmaStats` updates: the VMA's `usage` and the
process-wide `swap_offsets_` list. -/
structure WalkState where
  usage : MemUsage
  swaps : List Nat
  deriving DecidableEq, Repr

/-- The per-page body of the `ReadVmaStats` loop (procmeminfo.cpp:511-576)
on one pagemap entry `pinfo`.  `Except.error` is a `return false` of the
source (with the state as the source leaves it: `swap_offsets_` cleared on
a page-flags or map-count failure). -/
def processPage (o : PageAcct) (p : WalkParams) (st : WalkState)
    (pinfo : Nat) : Except WalkState WalkState :=
  let kb := p.pagesize / 1024
  if !PAGE_PRESENT pinfo ∧ !PAGE_SWAPPED pinfo then .ok st
  else if PAGE_SWAPPED pinfo then
    .ok { usage :=
            if p.update_swap_usage then
              { st.usage with swap := st.usage.swap + kb }
            else st.usage,
          swaps := st.swaps ++ [PAGE_SWAP_OFFSET pinfo] }
  else if !p.update_mem_usage then .ok st
  else
    match o.pageFlags (PAGE_PFN pinfo) with
    | none => .error { usage := st.usage, swaps := [] }
    | some flags =>
      let u1 := if KPAGEFLAG_THP flags then
                  { st.usage with thp := st.usage.thp + kb }
                else st.usage
      if flags &&& p.pgflags_mask ≠ p.pgflags then .ok { st with usage := u1 }
      else
        match o.pageMapCount (PAGE_PFN pinfo) with
        | none => .error { usage := u1, swaps := [] }
        | some cnt =>
          if cnt = 0 then .ok { st with usage := u1 }
          else
            let is_dirty := flags.testBit KPF_DIRTY
            let is_private := cnt = 1
            let is_referenced :=
              if p.use_pageidle then o.isPageIdle (PAGE_PFN pinfo) = 1
              else flags.testBit KPF_REFERENCED
            if p.get_wss ∧ !is_referenced then .ok { st with usage := u1 }
            else
              let u2 := if p.get_wss then { u1 with vss := u1.vss + kb } else u1
              .ok { usage :=
                      { u2 with
                        rss := u2.rss + kb
                        uss := u2.uss + (if is_private then kb else 0)
                        pss := u2.pss + kb / cnt
                        private_dirty := u2.private_dirty +
                          (if is_private then (if is_dirty then kb else 0) else 0)
                        private_clean := u2.private_clean +
                          (if is_private then (if is_dirty then 0 else kb) else 0)
                        shared_dirty := u2.shared_dirty +
                          (if is_private then 0 else (if is_dirty then kb else 0))
                        shared_clean := u2.shared_clean +
                          (if is_private then 0 else (if is_dirty then 0 else kb)) },
                    swaps := st.swaps }

/-- Folds `processPage` over a list of pagemap entries, stopping at the
first failure. -/
def walkPages (o : PageAcct) (p : WalkParams) :
    WalkState → List Nat → Except WalkState WalkState
  | st, [] => .ok st
  | st, e :: rest =>
      match processPage o p st e with
      | .error s => .error s
      | .ok s => walkPages o p s rest

/-- The pagemap entries a batched `pread64` returns on success: `n` 8-byte
entries starting at page index `start`.  `pm` is the pagemap content, one
value per page index. -/
def pmEntries (pm : Nat → Nat) (start n : Nat) : List Nat :=
  (List.range n).map (fun i => pm (start + i))

/-- The batch layout of the `ReadVmaStats` page cache
(procmeminfo.cpp:483-509): batches of `kMaxPages = 2048` entries, with a
final short batch; each pair is (offset of the batch within the VMA, batch
size). -/
def batchList (num_pages : Nat) : List (Nat × Nat) :=
  (List.range ((num_pages + 2047) / 2048)).map
    (fun i => (2048 * i, min (num_pages - 2048 * i) 2048))

/-- The batched walk: before each batch the cache is refilled by a
`pread64`; `rf start n = true` models a failed or short read of `n`
entries at page index `start`, which is a `return false` with the state
untouched (procmeminfo.cpp:497-507). -/
def walkBatches (pm : Nat → Nat) (rf : Nat → Nat → Bool) (o : PageAcct)
    (p : WalkParams) (first : Nat) :
    List (Nat × Nat) → WalkState → Except WalkState WalkState
  | [], st => .ok st
  | (off, n) :: rest, st =>
      if rf (first + off) n then .error st
      else
        match walkPages o p st (pmEntries pm (first + off) n) with
        | .error s => .error s
        | .ok s => walkBatches pm rf o p first rest s

/-- `ProcMemInfo::ReadVmaStats` (procmeminfo.cpp:467-581) for the VMA
`[vstart, vend)`: optional idle-page-accounting init, the batched page
walk, and the final `vss += pagesz_kb * num_pages` on the non-working-set
path. -/
def ReadVmaStats (pm : Nat → Nat) (rf : Nat → Nat → Bool) (o : PageAcct)
    (p : WalkParams) (vstart vend : Nat) (st : WalkState) :
    Except WalkState WalkState :=
  if p.get_wss ∧ p.use_pageidle ∧ !o.initPageAcct then .error st
  else
    let num_pages := (vend - vstart) / p.pagesize
    let first_page := vstart / p.pagesize
    match walkBatches pm rf o p first_page (batchList num_pages) st with
    | .error s => .error s
    | .ok s =>
        .ok { s with usage :=
                if !p.get_wss then
                  { s.usage with vss := s.usage.vss + p.pagesize / 1024 * num_pages }
                else s.usage }

/-- `ProcMemInfo::GetUsageStats` (procmeminfo.cpp:432-448) combined with
its caller `ReadMaps` (procmeminfo.cpp:425-428): walks every stored VMA
(with `update_swap_usage = true`), accumulating each VMA's usage into the
process total with `add_mem_usage`; any per-VMA failure makes `ReadMaps`
clear the map list and fail, modelled by `none`. -/
def getUsageStats (pm : Nat → Nat) (rf : Nat → Nat → Bool) (o : PageAcct)
    (p : WalkParams) :
    List Vma → MemUsage → List Nat → Option (List Vma × MemUsage × List Nat)
  | [], u, sw => some ([], u, sw)
  | vma :: rest, u, sw =>
      match ReadVmaStats pm rf o { p with update_swap_usage := true }
          vma.start vma.end_ ⟨vma.usage, sw⟩ with
      | .error _ => none
      | .ok st =>
          match getUsageStats pm rf o p rest (add_mem_usage u st.usage) st.swaps with
          | none => none
          | some (vs, u2, sw2) => some ({ vma with usage := st.usage } :: vs, u2, sw2)

/-!
Heap classification (`src/androidprocheaps.cpp`).  The heap-category
enumerators come from a header that is not under `src/`; they are modelled
from the spec (§3, §4.5) with the standard Android ordering — the claims
only depend on the constants being pairwise distinct.
-/

/-- Modelled from the spec: heap category enumerators (header not under
`src/`). -/
def HEAP_UNKNOWN : Nat := 0
/-- Dalvik heap top-level category. -/
def HEAP_DALVIK : Nat := 1
/-- Native heap category. -/
def HEAP_NATIVE : Nat := 2
/-- Dalvik-other top-level category. -/
def HEAP_DALVIK_OTHER : Nat := 3
/-- Stack category. -/
def HEAP_STACK : Nat := 4
/-- Cursor-window ashmem category. -/
def HEAP_CURSOR : Nat := 5
/-- Generic ashmem category. -/
def HEAP_ASHMEM : Nat := 6
/-- GPU device category. -/
def HEAP_GL_DEV : Nat := 7
/-- Unknown /dev mapping category. -/
def HEAP_UNKNOWN_DEV : Nat := 8
/-- Shared-library category. -/
def HEAP_SO : Nat := 9
/-- Jar category. -/
def HEAP_JAR : Nat := 10
/-- Apk category. -/
def HEAP_APK : Nat := 11
/-- Font category. -/
def HEAP_TTF : Nat := 12
/-- Dex top-level category. -/
def HEAP_DEX : Nat := 13
/-- Oat category. -/
def HEAP_OAT : Nat := 14
/-- Art top-level category. -/
def HEAP_ART : Nat := 15
/-- Unknown named mapping category. -/
def HEAP_UNKNOWN_MAP : Nat := 16
/-- Dalvik sub-category: normal (alloc/main space) heap. -/
def HEAP_DALVIK_NORMAL : Nat := 20
/-- Dalvik sub-category: large object space. -/
def HEAP_DALVIK_LARGE : Nat := 21
/-- Dalvik sub-category: zygote space. -/
def HEAP_DALVIK_ZYGOTE : Nat := 22
/-- Dalvik sub-category: non-moving space. -/
def HEAP_DALVIK_NON_MOVING : Nat := 23
/-- Dalvik-other sub-category: LinearAlloc. -/
def HEAP_DALVIK_OTHER_LINEARALLOC : Nat := 24
/-- Dalvik-other sub-category: app code cache. -/
def HEAP_DALVIK_OTHER_APP_CODE_CACHE : Nat := 25
/-- Dalvik-other sub-category: compiler metadata. -/
def HEAP_DALVIK_OTHER_COMPILER_METADATA : Nat := 26
/-- Dalvik-other sub-category: indirect reference table. -/
def HEAP_DALVIK_OTHER_INDIRECT_REFERENCE_TABLE : Nat := 27
/-- Dalvik-other sub-category: zygote code cache. -/
def HEAP_DALVIK_OTHER_ZYGOTE_CODE_CACHE : Nat := 28
/-- Dalvik-other sub-category: accounting (default). -/
def HEAP_DALVIK_OTHER_ACCOUNTING : Nat := 29
/-- Dex sub-category: boot vdex. -/
def HEAP_DEX_BOOT_VDEX : Nat := 30
/-- Dex sub-category: app dex. -/
def HEAP_DEX_APP_DEX : Nat := 31
/-- Dex sub-category: app vdex. -/
def HEAP_DEX_APP_VDEX : Nat := 32
/-- Art sub-category: app art. -/
def HEAP_ART_APP : Nat := 33
/-- Art sub-category: boot art. -/
def HEAP_ART_BOOT : Nat := 34

/-- `strstr(name, pat) != nullptr`: some tail of `cs` starts with `pat`. -/
def hasSub (cs pat : List Char) : Bool :=
  cs.tails.any (fun t => pat.isPrefixOf t)

/-- The classification chain of the `vma_scan` lambda in
`ExtractAndroidHeapStatsFromFile` (androidprocheaps.cpp:36-157): strips a
trailing " (deleted)", then runs the first-match-wins cascade; the result
is `(which_heap, sub_heap, is_swappable)`.  `prev_end`/`prev_heap` are the
scan state used by the bss-adjacency rule. -/
def classifyVma (vname : String) (vstart prev_end prev_heap : Nat) :
    Nat × Nat × Bool :=
  let n0 := vname.data
  let name := if (" (deleted)".data).isSuffixOf n0 then
                n0.take (n0.length - (" (deleted)".data).length)
              else n0
  let namesz := name.length
  if ("[heap]".data).isPrefixOf name then (HEAP_NATIVE, HEAP_UNKNOWN, false)
  else if ("[anon:libc_malloc]".data).isPrefixOf name then
    (HEAP_NATIVE, HEAP_UNKNOWN, false)
  else if ("[anon:scudo:".data).isPrefixOf name then
    (HEAP_NATIVE, HEAP_UNKNOWN, false)
  else if ("[anon:GWP-ASan".data).isPrefixOf name then
    (HEAP_NATIVE, HEAP_UNKNOWN, false)
  else if ("[stack".data).isPrefixOf name then (HEAP_STACK, HEAP_UNKNOWN, false)
  else if ("[anon:stack_and_tls:".data).isPrefixOf name then
    (HEAP_STACK, HEAP_UNKNOWN, false)
  else if (".so".data).isSuffixOf name then (HEAP_SO, HEAP_UNKNOWN, true)
  else if (".jar".data).isSuffixOf name then (HEAP_JAR, HEAP_UNKNOWN, true)
  else if (".apk".data).isSuffixOf name then (HEAP_APK, HEAP_UNKNOWN, true)
  else if (".ttf".data).isSuffixOf name then (HEAP_TTF, HEAP_UNKNOWN, true)
  else if (".odex".data).isSuffixOf name ∨ (4 < namesz ∧ hasSub name ".dex".data) then
    (HEAP_DEX, HEAP_DEX_APP_DEX, true)
  else if (".vdex".data).isSuffixOf name then
    if hasSub name "@boot".data ∨ hasSub name "/boot".data ∨
        hasSub name "/apex".data then
      (HEAP_DEX, HEAP_DEX_BOOT_VDEX, true)
    else (HEAP_DEX, HEAP_DEX_APP_VDEX, true)
  else if (".oat".data).isSuffixOf name then (HEAP_OAT, HEAP_UNKNOWN, true)
  else if (".art".data).isSuffixOf name ∨ (".art]".data).isSuffixOf name then
    if hasSub name "@boot".data ∨ hasSub name "/boot".data ∨
        hasSub name "/apex".data then
      (HEAP_ART, HEAP_ART_BOOT, true)
    else (HEAP_ART, HEAP_ART_APP, true)
  else if ("/dev/".data).isPrefixOf name then
    if ("/dev/kgsl-3d0".data).isPrefixOf name then
      (HEAP_GL_DEV, HEAP_UNKNOWN, false)
    else if ("/dev/ashmem/CursorWindow".data).isPrefixOf name then
      (HEAP_CURSOR, HEAP_UNKNOWN, false)
    else if ("/dev/ashmem/jit-zygote-cache".data).isPrefixOf name then
      (HEAP_DALVIK_OTHER, HEAP_DALVIK_OTHER_ZYGOTE_CODE_CACHE, false)
    else if ("/dev/ashmem".data).isPrefixOf name then
      (HEAP_ASHMEM, HEAP_UNKNOWN, false)
    else (HEAP_UNKNOWN_DEV, HEAP_UNKNOWN, false)
  else if ("/memfd:jit-cache".data).isPrefixOf name then
    (HEAP_DALVIK_OTHER, HEAP_DALVIK_OTHER_APP_CODE_CACHE, false)
  else if ("/memfd:jit-zygote-cache".data).isPrefixOf name then
    (HEAP_DALVIK_OTHER, HEAP_DALVIK_OTHER_ZYGOTE_CODE_CACHE, false)
  else if ("[anon:".data).isPrefixOf name then
    if ("[anon:dalvik-".data).isPrefixOf name then
      if ("[anon:dalvik-LinearAlloc".data).isPrefixOf name then
        (HEAP_DALVIK_OTHER, HEAP_DALVIK_OTHER_LINEARALLOC, false)
      else if ("[anon:dalvik-alloc space".data).isPrefixOf name ∨
          ("[anon:dalvik-main space".data).isPrefixOf name then
        (HEAP_DALVIK, HEAP_DALVIK_NORMAL, false)
      else if ("[anon:dalvik-large object space".data).isPrefixOf name ∨
          ("[anon:dalvik-free list large object space".data).isPrefixOf name then
        (HEAP_DALVIK, HEAP_DALVIK_LARGE, false)
      else if ("[anon:dalvik-non moving space".data).isPrefixOf name then
        (HEAP_DALVIK, HEAP_DALVIK_NON_MOVING, false)
      else if ("[anon:dalvik-zygote space".data).isPrefixOf name then
        (HEAP_DALVIK, HEAP_DALVIK_ZYGOTE, false)
      else if ("[anon:dalvik-indirect ref".data).isPrefixOf name then
        (HEAP_DALVIK_OTHER, HEAP_DALVIK_OTHER_INDIRECT_REFERENCE_TABLE, false)
      else if ("[anon:dalvik-jit-code-cache".data).isPrefixOf name ∨
          ("[anon:dalvik-data-code-cache".data).isPrefixOf name then
        (HEAP_DALVIK_OTHER, HEAP_DALVIK_OTHER_APP_CODE_CACHE, false)
      else if ("[anon:dalvik-CompilerMetadata".data).isPrefixOf name then
        (HEAP_DALVIK_OTHER, HEAP_DALVIK_OTHER_COMPILER_METADATA, false)
      else (HEAP_DALVIK_OTHER, HEAP_DALVIK_OTHER_ACCOUNTING, false)
    else (HEAP_UNKNOWN, HEAP_UNKNOWN, false)
  else if 0 < namesz then (HEAP_UNKNOWN_MAP, HEAP_UNKNOWN, false)
  else if vstart = prev_end ∧ prev_heap = HEAP_SO then
    -- bss section of a shared library
    (HEAP_SO, HEAP_UNKNOWN, false)
  else (HEAP_UNKNOWN, HEAP_UNKNOWN, false)

/-- Floor of the base-2 logarithm, computed with an explicit fuel so that
it reduces by structural recursion (`Nat.log2` is well-founded recursion
and does not evaluate inside the kernel).  With `fuel ≥ log2 m` this equals
`Nat.log2 m`. -/
def log2fuel : Nat → Nat → Nat
  | 0, _ => 0
  | fuel + 1, m => if m ≤ 1 then 0 else log2fuel fuel (m / 2) + 1

/-- Floor of the base-2 logarithm (`nlog2 0 = 0`). -/
def nlog2 (n : Nat) : Nat := log2fuel n n

/-- Round a nonnegative integer to the nearest IEEE binary32 value
(round-to-nearest, ties-to-even; 24-bit significand).  Every intermediate
float value in the swappable-PSS computation is a nonnegative integer, so
this is the only rounding operation needed.  Subnormals are irrelevant
(integers) and overflow to infinity (≥ 2^128) is not modelled. -/
def rnd32 (n : Nat) : Nat :=
  if n < 2 ^ 24 then n
  else
    let k := nlog2 n - 23
    let q := n >>> k
    let r := n % 2 ^ k
    let half := 2 ^ (k - 1)
    let qr := if half < r ∨ (r = half ∧ q % 2 = 1) then q + 1 else q
    qr <<< k

/-- Wrapping `uint64_t` subtraction. -/
def usub64 (a b : Nat) : Nat := (a % 2 ^ 64 + (2 ^ 64 - b % 2 ^ 64)) % 2 ^ 64

/-- The `swapable_pss` computation (androidprocheaps.cpp:167-175).
`sharing_proportion` is a C `float`, but it is assigned from a
`uint64_t / uint64_t` expression, so its value is the binary32 rounding of
the *integer* quotient `(pss - uss) / (shared_clean + shared_dirty)` (the
subtraction wraps as uint64).  `sharing_proportion * shared_clean` and the
`+ private_clean` are float operations on exactly-representable integer
operands, hence `rnd32` of the integer results; the assignment back to
`uint64_t swapable_pss` truncates an integral value. -/
def swapablePssOf (u : MemUsage) (is_swappable : Bool) : Nat :=
  if is_swappable ∧ 0 < u.pss then
    let sharing_proportion :=
      if 0 < u.shared_clean ∨ 0 < u.shared_dirty then
        rnd32 (usub64 u.pss u.uss / (u.shared_clean + u.shared_dirty))
      else 0
    rnd32 (rnd32 (sharing_proportion * rnd32 u.shared_clean) + rnd32 u.private_clean)
  else 0

/-- Modelled from the spec: one `AndroidHeapStats` slot (header not under
`src/`; §3 lists the nine per-slot aggregates). -/
structure HStat where
  pss : Nat := 0
  swappablePss : Nat := 0
  rss : Nat := 0
  privateDirty : Nat := 0
  sharedDirty : Nat := 0
  privateClean : Nat := 0
  sharedClean : Nat := 0
  swappedOut : Nat := 0
  swappedOutPss : Nat := 0
  deriving DecidableEq, Repr

/-- The nine `stats[h].x += ...` statements of androidprocheaps.cpp:177-185
applied to one slot. -/
def addHStat (h : HStat) (u : MemUsage) (sp : Nat) : HStat :=
  { pss := h.pss + u.pss
    swappablePss := h.swappablePss + sp
    rss := h.rss + u.rss
    privateDirty := h.privateDirty + u.private_dirty
    sharedDirty := h.sharedDirty + u.shared_dirty
    privateClean := h.privateClean + u.private_clean
    sharedClean := h.sharedClean + u.shared_clean
    swappedOut := h.swappedOut + u.swap
    swappedOutPss := h.swappedOutPss + u.swap_pss }

/-- The state threaded through the `vma_scan` lambda: the heap-stats table
(indexed by heap category), `prev_end`, `prev_heap`, and the `foundSwapPss`
out-parameter. -/
structure HeapScanState where
  stats : Nat → HStat
  prev_end : Nat
  prev_heap : Nat
  foundSwapPss : Bool

/-- One invocation of the `vma_scan` lambda
(androidprocheaps.cpp:36-199): classify, update the adjacency state and
`foundSwapPss`, compute `swapable_pss`, then accumulate into the top-level
slot and — for dalvik/dalvik-other/dex/art — also into the sub-category
slot. -/
def heapStep (st : HeapScanState) (vma : Vma) : HeapScanState :=
  let c := classifyVma vma.name vma.start st.prev_end st.prev_heap
  let which_heap := c.1
  let sub_heap := c.2.1
  let is_swappable := c.2.2
  let found := st.foundSwapPss || decide (0 < vma.usage.swap_pss)
  let sp := swapablePssOf vma.usage is_swappable
  let s1 := Function.update st.stats which_heap
              (addHStat (st.stats which_heap) vma.usage sp)
  let s2 := if which_heap = HEAP_DALVIK ∨ which_heap = HEAP_DALVIK_OTHER ∨
                which_heap = HEAP_DEX ∨ which_heap = HEAP_ART then
              Function.update s1 sub_heap (addHStat (s1 sub_heap) vma.usage sp)
            else s1
  { stats := s2, prev_end := vma.end_, prev_heap := which_heap,
    foundSwapPss := found }

/-- The initial scan state of `ExtractAndroidHeapStatsFromFile`
(androidprocheaps.cpp:32-34), with the caller-zeroed stats table. -/
def heapScanInit : HeapScanState :=
  { stats := fun _ => {}, prev_end := 0, prev_heap := HEAP_UNKNOWN,
    foundSwapPss := false }

/-- `ExtractAndroidHeapStatsFromFile` at the VMA level: the fold of
`vma_scan` over the VMAs delivered by the stream parser (the lambda always
returns `true`, so the scan never aborts early). -/
def extractAndroidHeapStats (vmas : List Vma) : HeapScanState :=
  vmas.foldl heapStep heapScanInit

/-- Modelled from the spec: one possible behaviour of the external
libprocinfo `ReadMapFileContent` line parser on two concrete, well-formed
maps-header lines of the §6 format
(`<start>-<end> <rwxp> <offset> <maj>:<min> <inode> [<path>]`); every other
line is a parse failure.  Used to drive the stream-parser model on concrete
inputs. -/
def demoMapsParser (l : String) : Option MapInfo :=
  if l = "ffff0000-ffff1000 r-xp 00000000 00:00 0 [vectors]\n" then
    some ⟨0xffff0000, 0xffff1000, 5, 0, 0, "[vectors]", false⟩
  else if l = "00400000-00409000 r-xp 00000000 fc:00 426998 /usr/lib/x.so\n" then
    some ⟨0x00400000, 0x00409000, 5, 0, 426998, "/usr/lib/x.so", false⟩
  else none

/-- A concrete page-flags oracle for sample walks: PFN 0 is a dirty
(KPF_DIRTY = bit 4) private page (map count 1), every other PFN is a clean
page shared by two processes (map count 2). -/
def sampleOracle : PageAcct :=
  ⟨true, fun pfn => some (if pfn = 0 then 16 else 0),
   fun pfn => some (if pfn = 0 then 1 else 2), fun _ => 0⟩

/-- A trivial oracle whose lookups always fail. -/
def failOracle : PageAcct := ⟨true, fun _ => none, fun _ => none, fun _ => 0⟩

/-- A concrete pagemap whose every entry is present (bit 63) with the page
index as PFN. -/
def samplePagemap : Nat → Nat := fun i => 2 ^ 63 + i

/-- The `MemUsage` invariant of a page-walk result: rss splits exactly into
the four clean/dirty buckets, uss is the private part, and pss never
exceeds rss. -/
def memInv (u : MemUsage) : Prop :=
  u.rss = u.private_clean + u.private_dirty + u.shared_clean + u.shared_dirty ∧
  u.uss = u.private_clean + u.private_dirty ∧
  u.pss ≤ u.rss

/-! ## Helper lemmas -/

/-- Integers up to 2^24 are exactly representable in binary32. -/
theorem rnd32_eq_of_le {n : Nat} (h : n ≤ 2 ^ 24) : rnd32 n = n := by
  rcases Nat.lt_or_ge n (2 ^ 24) with hlt | hge
  · unfold rnd32
    rw [if_pos hlt]
  · have : n = 2 ^ 24 := le_antisymm h hge
    subst this
    decide

/-! ## C3 -/

/-- C3 counterexample: merging is not field-wise addition on all sixteen
fields; `add_mem_usage` drops the source's `swap_pss` (procmeminfo.cpp:54-67
adds only nine fields). -/
theorem c3_counterexample :
    (add_mem_usage MemUsage.clear { MemUsage.clear with swap_pss := 1 }).swap_pss ≠
      MemUsage.clear.swap_pss +
        ({ MemUsage.clear with swap_pss := 1 } : MemUsage).swap_pss := by
  decide

/-- C3 (amended): `add_mem_usage` is field-wise addition on exactly the nine
fields vss, rss, pss, uss, swap, private_clean, private_dirty, shared_clean,
shared_dirty; the remaining fields keep the destination's value and the
source's contribution is dropped. -/
theorem c3_add_mem_usage (a b : MemUsage) :
    (add_mem_usage a b).vss = a.vss + b.vss ∧
    (add_mem_usage a b).rss = a.rss + b.rss ∧
    (add_mem_usage a b).pss = a.pss + b.pss ∧
    (add_mem_usage a b).uss = a.uss + b.uss ∧
    (add_mem_usage a b).swap = a.swap + b.swap ∧
    (add_mem_usage a b).private_clean = a.private_clean + b.private_clean ∧
    (add_mem_usage a b).private_dirty = a.private_dirty + b.private_dirty ∧
    (add_mem_usage a b).shared_clean = a.shared_clean + b.shared_clean ∧
    (add_mem_usage a b).shared_dirty = a.shared_dirty + b.shared_dirty ∧
    (add_mem_usage a b).swap_pss = a.swap_pss ∧
    (add_mem_usage a b).shared_hugetlb = a.shared_hugetlb ∧
    (add_mem_usage a b).private_hugetlb = a.private_hugetlb ∧
    (add_mem_usage a b).anon_huge_pages = a.anon_huge_pages ∧
    (add_mem_usage a b).shmem_pmd_mapped = a.shmem_pmd_mapped ∧
    (add_mem_usage a b).file_pmd_mapped = a.file_pmd_mapped ∧
    (add_mem_usage a b).locked = a.locked :=
  ⟨rfl, rfl, rfl, rfl, rfl, rfl, rfl, rfl, rfl, rfl, rfl, rfl, rfl, rfl, rfl, rfl⟩

/-! ## C2 -/

/-- C2 counterexample: a swappable VMA (name ends in `.so`, pss > 0) with no
shared pages and `private_clean = 2^24 + 1` kB gets a swappable-PSS
contribution of 2^24 (binary32 rounding of the float sum), not
`sharing_proportion * shared_clean + private_clean = 2^24 + 1` as claimed. -/
theorem c2_counterexample :
    classifyVma "/usr/lib/x.so" 0 0 0 = (HEAP_SO, HEAP_UNKNOWN, true) ∧
    ({ MemUsage.clear with pss := 1, private_clean := 16777217 } : MemUsage).shared_clean +
        ({ MemUsage.clear with pss := 1, private_clean := 16777217 } : MemUsage).shared_dirty = 0 ∧
    swapablePssOf { MemUsage.clear with pss := 1, private_clean := 16777217 } true =
      16777216 ∧
    ((heapStep heapScanInit
        { name := "/usr/lib/x.so",
          usage := { MemUsage.clear with pss := 1, private_clean := 16777217 } }).stats
        HEAP_SO).swappablePss = 16777216 ∧
    (16777216 : Nat) ≠ 0 * 0 + 16777217 := by
  refine ⟨by decide, by decide, by decide, ?_, by decide⟩
  decide

/-- C2 (amended): the swappable-PSS contribution is 0 for a non-swappable
VMA or one with pss = 0; for a swappable VMA with pss > 0 it is the binary32
evaluation of `sharing_proportion * shared_clean + private_clean`, where
`sharing_proportion` is the *integer* uint64 quotient
`(pss - uss) / (shared_clean + shared_dirty)` (the subtraction wrapping as
uint64) and 0 when `shared_clean + shared_dirty = 0` (never a division by
zero); this equals the exact integer formula whenever its value is at most
2^24 kB, and is perturbed by float rounding above that. -/
theorem c2_amended (u : MemUsage) (sw : Bool) :
    (sw = false ∨ u.pss = 0 → swapablePssOf u sw = 0) ∧
    (sw = true → 0 < u.pss → u.shared_clean = 0 → u.shared_dirty = 0 →
      u.private_clean ≤ 2 ^ 24 → swapablePssOf u sw = u.private_clean) ∧
    (sw = true → 0 < u.pss → 0 < u.shared_clean + u.shared_dirty →
      usub64 u.pss u.uss / (u.shared_clean + u.shared_dirty) * u.shared_clean +
          u.private_clean ≤ 2 ^ 24 →
      swapablePssOf u sw =
        usub64 u.pss u.uss / (u.shared_clean + u.shared_dirty) * u.shared_clean +
          u.private_clean) := by
  refine ⟨?_, ?_, ?_⟩
  · rintro (rfl | hp)
    · simp [swapablePssOf]
    · simp [swapablePssOf, hp]
  · rintro rfl hp hsc hsd hpc
    have h0 : rnd32 0 = 0 := rnd32_eq_of_le (by norm_num)
    simp [swapablePssOf, hp, hsc, hsd, h0, rnd32_eq_of_le hpc]
  · rintro rfl hp hs hle
    set q := usub64 u.pss u.uss / (u.shared_clean + u.shared_dirty) with hq
    have hpos : 0 < u.shared_clean ∨ 0 < u.shared_dirty := by omega
    have h0 : rnd32 0 = 0 := rnd32_eq_of_le (by norm_num)
    have hpc : u.private_clean ≤ 2 ^ 24 := by omega
    rcases Nat.eq_zero_or_pos u.shared_clean with hsc | hsc
    · simp [swapablePssOf, hp, hpos, ← hq, hsc, h0, rnd32_eq_of_le hpc]
    · rcases Nat.eq_zero_or_pos q with hq0 | hq0
      · simp [swapablePssOf, hp, hpos, ← hq, hq0, h0, rnd32_eq_of_le hpc]
      · have h1 : q ≤ 2 ^ 24 := by
          calc q ≤ q * u.shared_clean := Nat.le_mul_of_pos_right _ hsc
          _ ≤ 2 ^ 24 := by omega
        have h2 : u.shared_clean ≤ 2 ^ 24 := by
          calc u.shared_clean ≤ q * u.shared_clean := Nat.le_mul_of_pos_left _ hq0
          _ ≤ 2 ^ 24 := by omega
        have h3 : q * u.shared_clean ≤ 2 ^ 24 := by omega
        simp [swapablePssOf, hp, hpos, ← hq, rnd32_eq_of_le h1, rnd32_eq_of_le h2,
          rnd32_eq_of_le h3, rnd32_eq_of_le hpc, rnd32_eq_of_le hle]

/-- C2 witness: a concrete swappable VMA with pss 10, uss 4, shared 2+1 and
private_clean 3 gets contribution `(10-4)/3 * 2 + 3 = 7`. -/
theorem c2_witness :
    swapablePssOf
        { MemUsage.clear with
          pss := 10, uss := 4, shared_clean := 2, shared_dirty := 1,
          private_clean := 3 } true =
      usub64 10 4 / (2 + 1) * 2 + 3 :=
  (c2_amended
    { MemUsage.clear with
      pss := 10, uss := 4, shared_clean := 2, shared_dirty := 1,
      private_clean := 3 } true).2.2 rfl (by decide) (by decide) (by decide)

/-! ## C9 -/

/-- C9: a recognized smaps stat key assigns (overwrites) its field rather
than adding, while every `Private_Clean`/`Private_Dirty` occurrence also
*adds* to uss; a VMA block in which `Private_Dirty` appears twice therefore
ends with `uss ≠ private_clean + private_dirty` (here uss = 10 vs 0 + 5). -/
theorem c9_parse_overwrites (stats : MemUsage) :
    parse_smaps_field "Pss:                   9 kB\n" stats = some { stats with pss := 9 } ∧
    parse_smaps_field "Private_Dirty:         7 kB\n" stats =
      some { stats with private_dirty := 7, uss := stats.uss + 7 } ∧
    ((ForEachVmaFromFile demoMapsParser (fun _ => true) true
        ["00400000-00409000 r-xp 00000000 fc:00 426998 /usr/lib/x.so\n",
         "Pss: 3 kB\n", "Pss: 9 kB\n",
         "Private_Dirty: 5 kB\n", "Private_Dirty: 5 kB\n"]).2.map
        (fun v => (v.usage.pss, v.usage.private_clean, v.usage.private_dirty,
                   v.usage.uss))) = [(9, 0, 5, 10)] ∧
    (10 : Nat) ≠ 0 + 5 := by
  refine ⟨rfl, rfl, by decide, by decide⟩

/-! ## C8 -/

/-- One line of the rollup scan decomposes into the five per-line value
functions (the recognized prefixes are mutually exclusive). -/
theorem smapsOrRollupLine_eq (s : MemUsage) (l : String) :
    smapsOrRollupLine s l =
      { s with
        pss := s.pss + rollupPssVal l,
        rss := s.rss + rollupRssVal l,
        private_clean := s.private_clean + rollupPcVal l,
        private_dirty := s.private_dirty + rollupPdVal l,
        swap_pss := s.swap_pss + rollupSpVal l,
        uss := s.uss + (rollupPcVal l + rollupPdVal l) } := by
  unfold smapsOrRollupLine rollupPssVal rollupRssVal rollupPcVal rollupPdVal
    rollupSpVal
  by_cases h1 : ("Pss:".data).isPrefixOf l.data
  · simp [h1]
  · by_cases h2 : ("Private_Clean:".data).isPrefixOf l.data
    · simp [h1, h2]
    · by_cases h3 : ("Private_Dirty:".data).isPrefixOf l.data
      · simp [h1, h2, h3]
      · by_cases h4 : ("Rss:".data).isPrefixOf l.data
        · simp [h1, h2, h3, h4]
        · by_cases h5 : ("SwapPss:".data).isPrefixOf l.data
          · simp [h1, h2, h3, h4, h5]
          · simp [h1, h2, h3, h4, h5]

/-- Folding the rollup scan sums the per-line values field-wise. -/
theorem smapsOrRollup_foldl (lines : List String) (s : MemUsage) :
    lines.foldl smapsOrRollupLine s =
      { s with
        pss := s.pss + (lines.map rollupPssVal).sum,
        rss := s.rss + (lines.map rollupRssVal).sum,
        private_clean := s.private_clean + (lines.map rollupPcVal).sum,
        private_dirty := s.private_dirty + (lines.map rollupPdVal).sum,
        swap_pss := s.swap_pss + (lines.map rollupSpVal).sum,
        uss := s.uss + ((lines.map rollupPcVal).sum + (lines.map rollupPdVal).sum) } := by
  induction lines generalizing s with
  | nil => simp
  | cons l t ih =>
      simp only [List.foldl_cons, List.map_cons, List.sum_cons, ih,
        smapsOrRollupLine_eq]
      simp [MemUsage.mk.injEq]
      omega

/-- C8: the smaps/smaps_rollup fast-path scan (given an opened file) always
succeeds — malformed lines contribute nothing and are skipped — and returns
the sums of all `Pss`, `Rss`, `Private_Clean`, `Private_Dirty` and `SwapPss`
values of the stream, with every `Private_Clean` and `Private_Dirty` value
also folded into uss. -/
theorem c8_rollup_sums (lines : List String) :
    (SmapsOrRollupFromFile lines).1 = true ∧
    (SmapsOrRollupFromFile lines).2.pss = (lines.map rollupPssVal).sum ∧
    (SmapsOrRollupFromFile lines).2.rss = (lines.map rollupRssVal).sum ∧
    (SmapsOrRollupFromFile lines).2.private_clean = (lines.map rollupPcVal).sum ∧
    (SmapsOrRollupFromFile lines).2.private_dirty = (lines.map rollupPdVal).sum ∧
    (SmapsOrRollupFromFile lines).2.swap_pss = (lines.map rollupSpVal).sum ∧
    (SmapsOrRollupFromFile lines).2.uss =
      (lines.map rollupPcVal).sum + (lines.map rollupPdVal).sum := by
  unfold SmapsOrRollupFromFile
  rw [smapsOrRollup_foldl]
  simp [MemUsage.clear]

/-! ## C5 -/

/-- C5 counterexample: `ForEachVmaFromFile` itself does not filter the
deny-list — parsing a stream whose single mapping is the `[vectors]`
pseudo-VMA invokes the callback with it (and the scan succeeds). -/
theorem c5_counterexample :
    ((ForEachVmaFromFile demoMapsParser (fun _ => true) false
        ["ffff0000-ffff1000 r-xp 00000000 00:00 0 [vectors]\n"]).2.map Vma.name) =
      ["[vectors]"] ∧
    (ForEachVmaFromFile demoMapsParser (fun _ => true) false
        ["ffff0000-ffff1000 r-xp 00000000 00:00 0 [vectors]\n"]).1 = true ∧
    g_excluded_vmas.contains "[vectors]" = true := by
  exact ⟨by decide, by decide, by decide⟩

/-- C5 (amended): the deny-list filtering happens in the consumers, not in
the stream parser: every VMA stored by `ProcMemInfo::ReadMaps` and every VMA
kept by the `Smaps` collector has a name outside `g_excluded_vmas`, while
`ForEachVmaFromFile` passes deny-listed VMAs to its callback. -/
theorem c5_amended (mis : List MapInfo) (vmas : List Vma) (v w : Vma)
    (hv : v ∈ readMapsVmas mis) (hw : w ∈ smapsCollectVmas vmas) :
    g_excluded_vmas.contains v.name = false ∧
    g_excluded_vmas.contains w.name = false := by
  constructor
  · rcases List.mem_map.1 hv with ⟨mi, hmi, rfl⟩
    have h2 := (List.mem_filter.1 hmi).2
    simpa [Vma.ofMapInfo] using h2
  · have h2 := (List.mem_filter.1 hw).2
    simpa using h2

/-- C5 witness: the filters keep an ordinary `/usr/lib/x.so` mapping, whose
name is indeed not deny-listed. -/
theorem c5_amended_witness :
    g_excluded_vmas.contains
        (Vma.ofMapInfo ⟨4194304, 4231168, 5, 0, 426998, "/usr/lib/x.so", false⟩).name =
      false ∧
    g_excluded_vmas.contains
        (Vma.ofMapInfo ⟨4194304, 4231168, 5, 0, 426998, "/usr/lib/x.so", false⟩).name =
      false :=
  c5_amended [⟨4194304, 4231168, 5, 0, 426998, "/usr/lib/x.so", false⟩]
    [Vma.ofMapInfo ⟨4194304, 4231168, 5, 0, 426998, "/usr/lib/x.so", false⟩]
    (Vma.ofMapInfo ⟨4194304, 4231168, 5, 0, 426998, "/usr/lib/x.so", false⟩)
    (Vma.ofMapInfo ⟨4194304, 4231168, 5, 0, 426998, "/usr/lib/x.so", false⟩)
    (by decide) (by decide)

/-! ## C6 -/

/-- On an empty name the whole classification cascade falls through to the
bss-adjacency rule. -/
theorem classifyVma_empty (a b ph : Nat) :
    classifyVma "" a b ph =
      if a = b ∧ ph = HEAP_SO then (HEAP_SO, HEAP_UNKNOWN, false)
      else (HEAP_UNKNOWN, HEAP_UNKNOWN, false) := rfl

/-- C6: an empty-named VMA starting exactly where the previous VMA ended is
classified `HEAP_SO` when the previous VMA was classified `HEAP_SO` (the
library's bss), and is left `HEAP_UNKNOWN` whenever the adjacency condition
fails (androidprocheaps.cpp:152-157). -/
theorem c6_bss_adjacency (st : HeapScanState) (vma : Vma) (hname : vma.name = "") :
    (vma.start = st.prev_end → st.prev_heap = HEAP_SO →
      classifyVma vma.name vma.start st.prev_end st.prev_heap =
        (HEAP_SO, HEAP_UNKNOWN, false) ∧
      (heapStep st vma).prev_heap = HEAP_SO) ∧
    (¬(vma.start = st.prev_end ∧ st.prev_heap = HEAP_SO) →
      classifyVma vma.name vma.start st.prev_end st.prev_heap =
        (HEAP_UNKNOWN, HEAP_UNKNOWN, false) ∧
      (heapStep st vma).prev_heap = HEAP_UNKNOWN) := by
  constructor
  · intro h1 h2
    have hc : classifyVma vma.name vma.start st.prev_end st.prev_heap =
        (HEAP_SO, HEAP_UNKNOWN, false) := by
      rw [hname, classifyVma_empty, if_pos ⟨h1, h2⟩]
    exact ⟨hc, by simp [heapStep, hc]⟩
  · intro h
    have hc : classifyVma vma.name vma.start st.prev_end st.prev_heap =
        (HEAP_UNKNOWN, HEAP_UNKNOWN, false) := by
      rw [hname, classifyVma_empty, if_neg h]
    exact ⟨hc, by simp [heapStep, hc]⟩

/-- C6 witness: a concrete empty-named VMA at 0x1000 following a shared
library that ended at 0x1000. -/
theorem c6_witness :
    classifyVma (Vma.name { name := "", start := 4096 }) 4096 4096 HEAP_SO =
      (HEAP_SO, HEAP_UNKNOWN, false) ∧
    (heapStep ⟨fun _ => {}, 4096, HEAP_SO, false⟩ { name := "", start := 4096 }).prev_heap =
      HEAP_SO :=
  (c6_bss_adjacency ⟨fun _ => {}, 4096, HEAP_SO, false⟩ { name := "", start := 4096 }
    rfl).1 rfl rfl

/-! ## C7 -/

/-- C7: each classified VMA's usage is accumulated into the top-level slot
always, and additionally into the sub-category slot exactly when the
top-level category is dalvik, dalvik-other, dex or art; in particular a
process whose only mapping is `[anon:dalvik-alloc space 1]` (rss 42 kB)
yields `stats[HEAP_DALVIK].rss = stats[HEAP_DALVIK_NORMAL].rss = 42`. -/
theorem c7_dual_accumulation (st : HeapScanState) (vma : Vma) (h : Nat) :
    ((heapStep st vma).stats h =
      (let c := classifyVma vma.name vma.start st.prev_end st.prev_heap
       let sp := swapablePssOf vma.usage c.2.2
       let base := if h = c.1 then addHStat (st.stats h) vma.usage sp
                   else st.stats h
       if (c.1 = HEAP_DALVIK ∨ c.1 = HEAP_DALVIK_OTHER ∨ c.1 = HEAP_DEX ∨
            c.1 = HEAP_ART) ∧ h = c.2.1 then
         addHStat base vma.usage sp
       else base)) ∧
    (((extractAndroidHeapStats
        [{ name := "[anon:dalvik-alloc space 1]",
           usage := { MemUsage.clear with rss := 42 } }]).stats HEAP_DALVIK).rss = 42 ∧
      ((extractAndroidHeapStats
        [{ name := "[anon:dalvik-alloc space 1]",
           usage := { MemUsage.clear with rss := 42 } }]).stats HEAP_DALVIK_NORMAL).rss =
        42) := by
  constructor
  · rcases hc : classifyVma vma.name vma.start st.prev_end st.prev_heap with ⟨w, s, b⟩
    simp only [heapStep, hc, Function.update_apply]
    by_cases hd : w = HEAP_DALVIK ∨ w = HEAP_DALVIK_OTHER ∨ w = HEAP_DEX ∨ w = HEAP_ART
    · by_cases hs : h = s <;> by_cases hw : h = w <;>
        simp_all [Function.update_apply]
    · by_cases hw : h = w <;> simp_all [Function.update_apply]
  · exact ⟨by decide, by decide⟩

/-! ## C1 -/

/-- `memInv` only depends on the seven accounting fields. -/
theorem memInv_of_eq_fields {u v : MemUsage} (h : memInv u)
    (h1 : v.rss = u.rss) (h2 : v.uss = u.uss) (h3 : v.pss = u.pss)
    (h4 : v.private_clean = u.private_clean) (h5 : v.private_dirty = u.private_dirty)
    (h6 : v.shared_clean = u.shared_clean) (h7 : v.shared_dirty = u.shared_dirty) :
    memInv v := by
  unfold memInv at h ⊢
  rw [h1, h2, h3, h4, h5, h6, h7]
  exact h

/-- Accumulating one counted page (one of the four clean/dirty buckets gets
the page, uss gets it iff private, pss gets the proportional share)
preserves the usage invariant. -/
theorem memInv_accum {u : MemUsage} (h : memInv u) (kb cnt : Nat)
    (priv dirty : Prop) [Decidable priv] [Decidable dirty] :
    memInv { u with
      rss := u.rss + kb
      uss := u.uss + (if priv then kb else 0)
      pss := u.pss + kb / cnt
      private_dirty := u.private_dirty + (if priv then (if dirty then kb else 0) else 0)
      private_clean := u.private_clean + (if priv then (if dirty then 0 else kb) else 0)
      shared_dirty := u.shared_dirty + (if priv then 0 else (if dirty then kb else 0))
      shared_clean := u.shared_clean + (if priv then 0 else (if dirty then 0 else kb)) } := by
  obtain ⟨h1, h2, h3⟩ := h
  have hdiv : kb / cnt ≤ kb := Nat.div_le_self _ _
  refine ⟨?_, ?_, ?_⟩ <;>
    (simp only [memInv]; first | (split_ifs <;> omega) | omega)

set_option maxHeartbeats 2000000 in
/-- A single page step preserves the usage invariant. -/
theorem memInv_processPage {o : PageAcct} {p : WalkParams} {st s : WalkState}
    {e : Nat} (hs : processPage o p st e = .ok s) (h : memInv st.usage) :
    memInv s.usage := by
  simp only [processPage] at hs
  split at hs
  · cases hs; exact h
  · split at hs
    · cases hs
      exact memInv_of_eq_fields h (by split <;> rfl) (by split <;> rfl)
        (by split <;> rfl) (by split <;> rfl) (by split <;> rfl)
        (by split <;> rfl) (by split <;> rfl)
    · split at hs
      · cases hs; exact h
      · split at hs
        · exact (Except.noConfusion hs)
        · split at hs
          · cases hs
            exact memInv_of_eq_fields h (by split <;> rfl) (by split <;> rfl)
              (by split <;> rfl) (by split <;> rfl) (by split <;> rfl)
              (by split <;> rfl) (by split <;> rfl)
          · split at hs
            · exact (Except.noConfusion hs)
            · split at hs
              · cases hs
                exact memInv_of_eq_fields h (by split <;> rfl) (by split <;> rfl)
                  (by split <;> rfl) (by split <;> rfl) (by split <;> rfl)
                  (by split <;> rfl) (by split <;> rfl)
              · -- the working-set referenced check carries an ite inside its
                -- condition (page-idle vs referenced flag): split both levels
                split at hs <;> split at hs
                · cases hs
                  exact memInv_of_eq_fields h (by split <;> rfl) (by split <;> rfl)
                    (by split <;> rfl) (by split <;> rfl) (by split <;> rfl)
                    (by split <;> rfl) (by split <;> rfl)
                · cases hs
                  obtain ⟨h1, h2, h3⟩ := h
                  refine ⟨?_, ?_, ?_⟩
                  · split_ifs <;> (simp only []; omega)
                  · split_ifs <;> (simp only []; omega)
                  · split_ifs <;>
                      (simp only []
                       exact Nat.add_le_add h3 (Nat.div_le_self _ _))
                · cases hs
                  exact memInv_of_eq_fields h (by split <;> rfl) (by split <;> rfl)
                    (by split <;> rfl) (by split <;> rfl) (by split <;> rfl)
                    (by split <;> rfl) (by split <;> rfl)
                · cases hs
                  obtain ⟨h1, h2, h3⟩ := h
                  refine ⟨?_, ?_, ?_⟩
                  · split_ifs <;> (simp only []; omega)
                  · split_ifs <;> (simp only []; omega)
                  · split_ifs <;>
                      (simp only []
                       exact Nat.add_le_add h3 (Nat.div_le_self _ _))

/-- The page-list walk preserves the usage invariant. -/
theorem memInv_walkPages {o : PageAcct} {p : WalkParams} :
    ∀ {l : List Nat} {st s : WalkState},
      walkPages o p st l = .ok s → memInv st.usage → memInv s.usage := by
  intro l
  induction l with
  | nil =>
      intro st s hs h
      simp only [walkPages, Except.ok.injEq] at hs
      rw [← hs]; exact h
  | cons e t ih =>
      intro st s hs h
      simp only [walkPages] at hs
      cases hp : processPage o p st e with
      | error s1 =>
          rw [hp] at hs
          exact (Except.noConfusion hs)
      | ok s1 =>
          simp only [hp] at hs
          exact ih hs (memInv_processPage hp h)

/-- The batched walk preserves the usage invariant. -/
theorem memInv_walkBatches {pm : Nat → Nat} {rf : Nat → Nat → Bool}
    {o : PageAcct} {p : WalkParams} {first : Nat} :
    ∀ {bs : List (Nat × Nat)} {st s : WalkState},
      walkBatches pm rf o p first bs st = .ok s → memInv st.usage → memInv s.usage := by
  intro bs
  induction bs with
  | nil =>
      intro st s hs h
      simp only [walkBatches, Except.ok.injEq] at hs
      rw [← hs]; exact h
  | cons b t ih =>
      intro st s hs h
      rcases b with ⟨off, n⟩
      simp only [walkBatches] at hs
      split at hs
      · exact (Except.noConfusion hs)
      · cases hw : walkPages o p st (pmEntries pm (first + off) n) with
        | error s1 =>
            rw [hw] at hs
            exact (Except.noConfusion hs)
        | ok s1 =>
            simp only [hw] at hs
            exact ih hs (memInv_walkPages hw h)

/-- C1: a successful page walk of a fresh VMA (usage starts zeroed, memory
usage updating enabled, any page-flags filter, any working-set mode)
produces a `MemUsage` with `rss = private_clean + private_dirty +
shared_clean + shared_dirty`, `uss = private_clean + private_dirty` and
`pss ≤ rss`. -/
theorem c1_pagewalk_invariants (pm : Nat → Nat) (rf : Nat → Nat → Bool)
    (o : PageAcct) (p : WalkParams) (vs ve : Nat) (sw0 : List Nat)
    (st' : WalkState) (_hupd : p.update_mem_usage = true)
    (hok : ReadVmaStats pm rf o p vs ve ⟨MemUsage.clear, sw0⟩ = .ok st') :
    st'.usage.rss = st'.usage.private_clean + st'.usage.private_dirty +
        st'.usage.shared_clean + st'.usage.shared_dirty ∧
    st'.usage.uss = st'.usage.private_clean + st'.usage.private_dirty ∧
    st'.usage.pss ≤ st'.usage.rss := by
  simp only [ReadVmaStats] at hok
  split at hok
  · exact (Except.noConfusion hok)
  · cases hw : walkBatches pm rf o p (vs / p.pagesize)
        (batchList ((ve - vs) / p.pagesize)) ⟨MemUsage.clear, sw0⟩ with
    | error s1 =>
        rw [hw] at hok
        exact (Except.noConfusion hok)
    | ok s1 =>
        simp only [hw, Except.ok.injEq] at hok
        have hclear : memInv (MemUsage.clear) := ⟨rfl, rfl, Nat.le_refl 0⟩
        have hinv : memInv s1.usage := memInv_walkBatches hw hclear
        rw [← hok]
        exact memInv_of_eq_fields hinv (by split <;> rfl) (by split <;> rfl)
          (by split <;> rfl) (by split <;> rfl) (by split <;> rfl)
          (by split <;> rfl) (by split <;> rfl)

/-- C1 witness: a concrete two-page walk (one private dirty page, one page
shared between two processes) satisfies the three invariants. -/
theorem c1_witness :
    (⟨{ MemUsage.clear with
        vss := 8, rss := 8, pss := 6, uss := 4, private_dirty := 4,
        shared_clean := 4 }, []⟩ : WalkState).usage.rss =
        (⟨{ MemUsage.clear with
            vss := 8, rss := 8, pss := 6, uss := 4, private_dirty := 4,
            shared_clean := 4 }, []⟩ : WalkState).usage.private_clean +
          (⟨{ MemUsage.clear with
              vss := 8, rss := 8, pss := 6, uss := 4, private_dirty := 4,
              shared_clean := 4 }, []⟩ : WalkState).usage.private_dirty +
          (⟨{ MemUsage.clear with
              vss := 8, rss := 8, pss := 6, uss := 4, private_dirty := 4,
              shared_clean := 4 }, []⟩ : WalkState).usage.shared_clean +
          (⟨{ MemUsage.clear with
              vss := 8, rss := 8, pss := 6, uss := 4, private_dirty := 4,
              shared_clean := 4 }, []⟩ : WalkState).usage.shared_dirty ∧
    (⟨{ MemUsage.clear with
        vss := 8, rss := 8, pss := 6, uss := 4, private_dirty := 4,
        shared_clean := 4 }, []⟩ : WalkState).usage.uss =
        (⟨{ MemUsage.clear with
            vss := 8, rss := 8, pss := 6, uss := 4, private_dirty := 4,
            shared_clean := 4 }, []⟩ : WalkState).usage.private_clean +
          (⟨{ MemUsage.clear with
              vss := 8, rss := 8, pss := 6, uss := 4, private_dirty := 4,
              shared_clean := 4 }, []⟩ : WalkState).usage.private_dirty ∧
    (⟨{ MemUsage.clear with
        vss := 8, rss := 8, pss := 6, uss := 4, private_dirty := 4,
        shared_clean := 4 }, []⟩ : WalkState).usage.pss ≤
      (⟨{ MemUsage.clear with
          vss := 8, rss := 8, pss := 6, uss := 4, private_dirty := 4,
          shared_clean := 4 }, []⟩ : WalkState).usage.rss :=
  c1_pagewalk_invariants samplePagemap (fun _ _ => false) sampleOracle {} 0 8192 []
    ⟨{ MemUsage.clear with
       vss := 8, rss := 8, pss := 6, uss := 4, private_dirty := 4,
       shared_clean := 4 }, []⟩ rfl rfl

/-! ## C4 and C10 -/

/-- A failed (or short) `pread64` of the first pagemap batch makes
`ReadVmaStats` fail with the state untouched: for a VMA of at most
`kMaxPages = 2048` pages there is a single batch, so nothing at all is
accumulated. -/
theorem readVmaStats_first_read_fail (pm : Nat → Nat) (rf : Nat → Nat → Bool)
    (o : PageAcct) (p : WalkParams) (vs ve : Nat) (st : WalkState)
    (hnum : 0 < (ve - vs) / p.pagesize) (hle : (ve - vs) / p.pagesize ≤ 2048)
    (hrf : rf (vs / p.pagesize) ((ve - vs) / p.pagesize) = true)
    (hinit : ¬(p.get_wss = true ∧ p.use_pageidle = true ∧ o.initPageAcct = false)) :
    ReadVmaStats pm rf o p vs ve st = .error st := by
  have hcond : ¬(p.get_wss = true ∧ p.use_pageidle = true ∧
      (!o.initPageAcct) = true) := by
    simpa [Bool.not_eq_true'] using hinit
  have hone : ((ve - vs) / p.pagesize + 2047) / 2048 = 1 := by omega
  have hb : batchList ((ve - vs) / p.pagesize) =
      [(0, (ve - vs) / p.pagesize)] := by
    unfold batchList
    rw [hone]
    rw [show List.range 1 = [0] from by decide]
    simp [Nat.min_eq_left hle]
  unfold ReadVmaStats
  rw [if_neg hcond]
  simp only [hb, walkBatches, Nat.add_zero, hrf]
  simp

/-- C10: a failed page-flags or page-map-count lookup clears the whole
accumulated swap-offsets list before failing, while a failed or short
pagemap read fails with the accumulated state — swap offsets included —
left in place (procmeminfo.cpp:497-507 vs 526-529 and 540-543). -/
theorem c10_swap_offsets_clearing (o : PageAcct) (p : WalkParams)
    (st : WalkState) (e : Nat) (pm : Nat → Nat) (rf : Nat → Nat → Bool)
    (vs ve : Nat)
    (hpres : PAGE_PRESENT e = true) (hsw : PAGE_SWAPPED e = false)
    (hupd : p.update_mem_usage = true)
    (hnum : 0 < (ve - vs) / p.pagesize) (hle : (ve - vs) / p.pagesize ≤ 2048)
    (hrf : rf (vs / p.pagesize) ((ve - vs) / p.pagesize) = true)
    (hinit : ¬(p.get_wss = true ∧ p.use_pageidle = true ∧ o.initPageAcct = false)) :
    (o.pageFlags (PAGE_PFN e) = none →
      processPage o p st e = .error ⟨st.usage, []⟩) ∧
    (∀ fl, o.pageFlags (PAGE_PFN e) = some fl →
      fl &&& p.pgflags_mask = p.pgflags →
      o.pageMapCount (PAGE_PFN e) = none →
      processPage o p st e =
        .error ⟨(if KPAGEFLAG_THP fl then
                   { st.usage with thp := st.usage.thp + p.pagesize / 1024 }
                 else st.usage), []⟩) ∧
    ReadVmaStats pm rf o p vs ve st = .error st := by
  refine ⟨?_, ?_, readVmaStats_first_read_fail pm rf o p vs ve st hnum hle hrf hinit⟩
  · intro hf
    simp [processPage, hpres, hsw, hupd, hf]
  · intro fl hf hmask hcnt
    simp [processPage, hpres, hsw, hupd, hf, hmask, hcnt]

/-- C10 witness: with an oracle whose lookups fail, a present page clears
the accumulated offset 5, while a failed first read keeps it. -/
theorem c10_witness :
    ReadVmaStats (fun _ => 0) (fun _ _ => true) failOracle {} 0 4096
        ⟨MemUsage.clear, [5]⟩ = .error ⟨MemUsage.clear, [5]⟩ ∧
    processPage failOracle {} ⟨MemUsage.clear, [5]⟩ (2 ^ 63) =
      .error ⟨MemUsage.clear, []⟩ := by
  have h := c10_swap_offsets_clearing failOracle {} ⟨MemUsage.clear, [5]⟩ (2 ^ 63)
    (fun _ => 0) (fun _ _ => true) 0 4096 (by decide) (by decide) rfl
    (by decide) (by decide) rfl (by decide)
  exact ⟨h.2.2, h.1 rfl⟩

/-- C4 (amended): for a VMA of at most 2048 pages (a single pagemap batch),
a failed or short read makes the walker fail with the VMA's usage exactly
as before the walk; and in the `ReadMaps`/`GetUsageStats` path any per-VMA
walk failure discards the whole map list (no partially updated VMA is ever
observable there).  For VMAs larger than one batch, `ReadVmaStats` itself
leaves the usage accumulated from earlier batches in the VMA (see the
counterexample). -/
theorem c4_amended (pm : Nat → Nat) (rf : Nat → Nat → Bool) (o : PageAcct)
    (p : WalkParams) (vma : Vma) (rest : List Vma) (u : MemUsage) (sw : List Nat)
    (hnum : 0 < (vma.end_ - vma.start) / p.pagesize)
    (hle : (vma.end_ - vma.start) / p.pagesize ≤ 2048)
    (hrf : rf (vma.start / p.pagesize) ((vma.end_ - vma.start) / p.pagesize) = true)
    (hinit : ¬(p.get_wss = true ∧ p.use_pageidle = true ∧ o.initPageAcct = false)) :
    ReadVmaStats pm rf o p vma.start vma.end_ ⟨vma.usage, sw⟩ =
      .error ⟨vma.usage, sw⟩ ∧
    getUsageStats pm rf o p (vma :: rest) u sw = none := by
  refine ⟨readVmaStats_first_read_fail pm rf o p vma.start vma.end_
    ⟨vma.usage, sw⟩ hnum hle hrf hinit, ?_⟩
  have h2 := readVmaStats_first_read_fail pm rf o
    { p with update_swap_usage := true } vma.start vma.end_ ⟨vma.usage, sw⟩
    hnum hle hrf hinit
  simp only [getUsageStats, h2]

/-- C4 witness: a one-page VMA whose pagemap read fails: the walker errors
with the state unchanged, and the process-level scan returns nothing. -/
theorem c4_witness :
    ReadVmaStats (fun _ => 0) (fun _ _ => true) failOracle {}
        (Vma.start { start := 0, end_ := 4096 }) (Vma.end_ { start := 0, end_ := 4096 })
        ⟨(Vma.empty).usage, []⟩ = .error ⟨(Vma.empty).usage, []⟩ ∧
    getUsageStats (fun _ => 0) (fun _ _ => true) failOracle {}
        [{ start := 0, end_ := 4096 }] MemUsage.clear [] = none :=
  c4_amended (fun _ => 0) (fun _ _ => true) failOracle {} { start := 0, end_ := 4096 }
    [] MemUsage.clear [] (by decide) (by decide) rfl (by decide)

/-- Walking a run of swapped pages accumulates `swap` and appends one swap
offset per page (offset 0 for the entry `2^62`). -/
theorem walkPages_replicate_swapped (o : PageAcct) (p : WalkParams)
    (hupd : p.update_swap_usage = true) (n : Nat) :
    ∀ st : WalkState,
      walkPages o p st (List.replicate n (2 ^ 62)) =
        .ok ⟨{ st.usage with swap := st.usage.swap + n * (p.pagesize / 1024) },
             st.swaps ++ List.replicate n 0⟩ := by
  induction n with
  | zero =>
      intro st
      simp [walkPages]
  | succ n ih =>
      intro st
      have hp : processPage o p st (2 ^ 62) =
          .ok ⟨{ st.usage with swap := st.usage.swap + p.pagesize / 1024 },
               st.swaps ++ [0]⟩ := by
        have h1 : PAGE_PRESENT 4611686018427387904 = false := by decide
        have h2 : PAGE_SWAPPED 4611686018427387904 = true := by decide
        have h3 : PAGE_SWAP_OFFSET 4611686018427387904 = 0 := by decide
        simp [processPage, h1, h2, h3, hupd]
      rw [List.replicate_succ]
      simp only [walkPages, hp]
      rw [ih]
      have hswap : st.usage.swap + p.pagesize / 1024 + n * (p.pagesize / 1024) =
          st.usage.swap + (n + 1) * (p.pagesize / 1024) := by ring
      simp [hswap, List.replicate_succ, List.append_assoc]

/-- One unfolding step of the batched walk. -/
theorem walkBatches_cons (pm : Nat → Nat) (rf : Nat → Nat → Bool) (o : PageAcct)
    (p : WalkParams) (first off n : Nat) (rest : List (Nat × Nat)) (st : WalkState) :
    walkBatches pm rf o p first ((off, n) :: rest) st =
      if rf (first + off) n then .error st
      else
        match walkPages o p st (pmEntries pm (first + off) n) with
        | .error s => .error s
        | .ok s => walkBatches pm rf o p first rest s := rfl

set_option maxRecDepth 8192 in
/-- C4 counterexample: a 2049-page VMA whose first 2048-entry batch reads
fine (all pages swapped) and whose second batch read fails: `ReadVmaStats`
returns failure but the VMA's usage already holds `swap = 8192` kB — it is
not "the same as before the walk started". -/
theorem c4_counterexample :
    ReadVmaStats (fun _ => 2 ^ 62) (fun s _ => decide (2048 ≤ s)) failOracle {} 0
        (2049 * 4096) ⟨MemUsage.clear, []⟩ =
      .error ⟨{ MemUsage.clear with swap := 8192 }, List.replicate 2048 0⟩ ∧
    ({ MemUsage.clear with swap := 8192 } : MemUsage) ≠ MemUsage.clear := by
  constructor
  · have hnum : (2049 * 4096 - 0) / ({} : WalkParams).pagesize = 2049 := by decide
    have hb : batchList 2049 = [(0, 2048), (2048, 1)] := by decide
    have he : pmEntries (fun _ => 2 ^ 62) (0 / ({} : WalkParams).pagesize + 0) 2048 =
        List.replicate 2048 (2 ^ 62) := by
      simp [pmEntries, List.map_const']
    have hw := walkPages_replicate_swapped failOracle {} rfl 2048
      ⟨MemUsage.clear, []⟩
    have h2 : walkBatches (fun _ => 2 ^ 62) (fun s _ => decide (2048 ≤ s)) failOracle {}
        (0 / ({} : WalkParams).pagesize) [(0, 2048), (2048, 1)] ⟨MemUsage.clear, []⟩ =
        .error ⟨{ MemUsage.clear with swap := 8192 }, List.replicate 2048 0⟩ := by
      rw [walkBatches_cons, if_neg (by decide), he, hw]
      show walkBatches _ _ _ _ _ [(2048, 1)]
        ⟨{ MemUsage.clear with swap := 8192 }, List.replicate 2048 0⟩ = _
      rw [walkBatches_cons, if_pos (by decide)]
    unfold ReadVmaStats
    rw [if_neg (by decide)]
    simp only [hnum, hb]
    rw [h2]
  · decide


/-- C3 witness: the vss component of the merge equation at a concrete pair. -/
theorem c3_witness :
    (add_mem_usage { MemUsage.clear with vss := 2 }
        { MemUsage.clear with vss := 3 }).vss =
      ({ MemUsage.clear with vss := 2 } : MemUsage).vss +
        ({ MemUsage.clear with vss := 3 } : MemUsage).vss :=
  (c3_add_mem_usage { MemUsage.clear with vss := 2 }
    { MemUsage.clear with vss := 3 }).1

/-- C7 witness: the dalvik-heap scenario instance. -/
theorem c7_witness :
    ((extractAndroidHeapStats
        [{ name := "[anon:dalvik-alloc space 1]",
           usage := { MemUsage.clear with rss := 42 } }]).stats HEAP_DALVIK).rss =
      42 :=
  (c7_dual_accumulation heapScanInit Vma.empty 0).2.1

/-- C8 witness: the Pss sum over a concrete one-line stream. -/
theorem c8_witness :
    (SmapsOrRollupFromFile ["Pss: 3 kB\n"]).2.pss =
      (["Pss: 3 kB\n"].map rollupPssVal).sum :=
  (c8_rollup_sums ["Pss: 3 kB\n"]).2.1

/-- C9 witness: the Private_Dirty assignment at a concrete starting state. -/
theorem c9_witness :
    parse_smaps_field "Private_Dirty:         7 kB\n" MemUsage.clear =
      some { MemUsage.clear with
             private_dirty := 7, uss := MemUsage.clear.uss + 7 } :=
  (c9_parse_overwrites MemUsage.clear).2.1

end Meminfo
